import Mathlib

/-!
# Verification of the rustprazi corpus-build pipeline

Shallow embedding of `src/bin/prazi.rs` (the whole repository): the package
identifier (`PraziCrate`) with its derived URL/path projections, the catalog
construction (`Registry::read`), the bounded fetch pipeline
(`Registry::download_src`, built on futures-0.1 `buffer_unordered(N)` run on a
tokio-core reactor), and the four rayon-parallel transform stages
(`validate_manifests`, `rewrite_manifests`, `compile`, `build_callgraph`).

Effectful pieces are embedded as pure functions over explicit inputs:
the filesystem is a list of existing paths, subprocess results are oracle
values, glob results are explicit lists, and the fetch event loop is a small
step machine driven by an explicit scheduler choice sequence.
-/

namespace Prazi

/-- Embedding of Rust `format!` restricted to the positional numeric
placeholders `{0}`..`{9}` that `prazi.rs` uses.  Keeps the source's template
strings verbatim. -/
def fmtChars : List Char → List String → List Char
  | [], _ => []
  | '{' :: d :: '}' :: rest, args =>
      (args.getD (d.toNat - 48) "").data ++ fmtChars rest args
  | c :: rest, args => c :: fmtChars rest args

/-- `rustFormat template args` is `format!(template, args...)`. -/
def rustFormat (template : String) (args : List String) : String :=
  ⟨fmtChars template.data args⟩

/-- `static CRATES_ROOT: &str = "https://crates-io.s3-us-west-1.amazonaws.com/crates";` -/
def CRATES_ROOT : String := "https://crates-io.s3-us-west-1.amazonaws.com/crates"

/-- `pub struct PraziCrate { pub name: String, pub version: String }` -/
structure PraziCrate where
  name : String
  version : String
deriving DecidableEq, Repr, Inhabited

/-- `PraziCrate::url_src`:
`format!("{0}/{1}/{1}-{2}.crate", CRATES_ROOT, self.name, self.version)`. -/
def PraziCrate.url_src (c : PraziCrate) : String :=
  rustFormat "{0}/{1}/{1}-{2}.crate" [CRATES_ROOT, c.name, c.version]

/-- `PraziCrate::dir`:
`format!("{0}/crates/reg/{1}/{2}", &**PRAZI_DIR, self.name, self.version)`.
The configured storage root `PRAZI_DIR` is passed explicitly as `root`. -/
def PraziCrate.dir (root : String) (c : PraziCrate) : String :=
  rustFormat "{0}/crates/reg/{1}/{2}" [root, c.name, c.version]

/-- `PraziCrate::dir_src`:
`format!("{0}/crates/reg/{1}", &**PRAZI_DIR, self.name)`. -/
def PraziCrate.dir_src (root : String) (c : PraziCrate) : String :=
  rustFormat "{0}/crates/reg/{1}" [root, c.name]

theorem String.append_def (a b : String) : a ++ b = ⟨a.data ++ b.data⟩ := rfl

theorem url_src_shape (c : PraziCrate) :
    c.url_src =
      CRATES_ROOT ++ "/" ++ c.name ++ "/" ++ c.name ++ "-" ++ c.version ++ ".crate" := by
  simp [PraziCrate.url_src, rustFormat, fmtChars, CRATES_ROOT, String.append_def]

theorem dir_shape (root : String) (c : PraziCrate) :
    c.dir root = root ++ "/crates/reg/" ++ c.name ++ "/" ++ c.version := by
  simp [PraziCrate.dir, rustFormat, fmtChars, String.append_def]

theorem dir_src_shape (root : String) (c : PraziCrate) :
    c.dir_src root = root ++ "/crates/reg/" ++ c.name := by
  simp [PraziCrate.dir_src, rustFormat, fmtChars, String.append_def]

/-- **C5.** For every Package Identifier, the derived source-archive URL and
workspace-path projections are pure and deterministic — two identifiers with
the same name and version yield byte-identical strings — and have the
specified shapes: the URL is the fixed root followed by
`/{name}/{name}-{version}.crate`, and the final workspace path is
`{root}/crates/reg/{name}/{version}`. -/
theorem url_and_path_projections (root : String) (c : PraziCrate) :
    c.url_src =
      CRATES_ROOT ++ "/" ++ c.name ++ "/" ++ c.name ++ "-" ++ c.version ++ ".crate"
    ∧ c.dir root = root ++ "/crates/reg/" ++ c.name ++ "/" ++ c.version
    ∧ ∀ c' : PraziCrate, c'.name = c.name → c'.version = c.version →
        c'.url_src = c.url_src ∧ c'.dir root = c.dir root := by
  refine ⟨url_src_shape c, dir_shape root c, ?_⟩
  intro c' hn hv
  have : c' = c := by cases c'; cases c; simp_all
  subst this
  exact ⟨rfl, rfl⟩

/-- Witness for C5 at a concrete identifier. -/
theorem url_and_path_projections_witness :
    (PraziCrate.mk "serde" "1.0.0").url_src =
      CRATES_ROOT ++ "/" ++ "serde" ++ "/" ++ "serde" ++ "-" ++ "1.0.0" ++ ".crate"
    ∧ (PraziCrate.mk "serde" "1.0.0").dir "/prazi" =
        "/prazi" ++ "/crates/reg/" ++ "serde" ++ "/" ++ "1.0.0"
    ∧ (PraziCrate.mk "serde" "1.0.0").url_src = (PraziCrate.mk "serde" "1.0.0").url_src
    ∧ (PraziCrate.mk "serde" "1.0.0").dir "/prazi"
        = (PraziCrate.mk "serde" "1.0.0").dir "/prazi" := by
  have h := url_and_path_projections "/prazi" (PraziCrate.mk "serde" "1.0.0")
  have h' := h.2.2 (PraziCrate.mk "serde" "1.0.0") rfl rfl
  exact ⟨h.1, h.2.1, h'.1, h'.2⟩

/-! ## Bounded fetch pipeline (`Registry::download_src`)

`download_src` builds, over the catalog, the futures-0.1 stream
`stream::iter_ok(list).map(request-then-unpack).buffer_unordered(N)` and
drains it with `for_each(Ok).run()` on a tokio-core reactor.

Embedding: each catalog entry becomes a `FetchTask` whose future needs some
number of polls before it completes with a fixed `FetchOutcome`:
* `success`  — 200 response, `archive.unpack` and `fs::rename` succeed;
* `netErr`   — `client.send()` (or the body stream) fails: the inner future
  resolves to `Err`, `buffer_unordered` yields `Err`, `for_each` stops, and
  `core.run(work)?` makes `download_src` return `Err`;
* `panicUnpack` / `panicRename` — `archive.unpack(..).unwrap()` or
  `fs::rename(..).unwrap()` panics on the reactor thread, aborting the run.

`buffer_unordered(N)` first refills its buffer from the underlying stream up
to `N` in-flight futures, then polls them in an order the embedding leaves to
an explicit scheduler choice. -/

/-- `const N: usize = 5;` — the fetch concurrency ceiling. -/
def N : Nat := 5

inductive FetchOutcome where
  | success
  | netErr
  | panicUnpack
  | panicRename
deriving DecidableEq, Repr, Inhabited

/-- One catalog entry's download future: `idx` is its catalog position,
`polls` the number of event-loop polls before it resolves, `outcome` how it
resolves. -/
structure FetchTask where
  idx : Nat
  polls : Nat
  outcome : FetchOutcome
deriving DecidableEq, Repr, Inhabited

/-- How the whole `download_src` call ends. -/
inductive FetchResult where
  | ok
  | err
  | panicked
deriving DecidableEq, Repr, Inhabited

/-- State of the fetch event loop. `pending` are catalog entries the
buffered stream has not yet started, `inflight` the at-most-`N` buffered
futures, `done` the indices of entries that reached a terminal per-item state
(completed unpack-and-rename), `result` the run's outcome once it stops. -/
structure FetchState where
  pending : List FetchTask
  inflight : List FetchTask
  done : List Nat
  result : Option FetchResult
deriving DecidableEq, Repr, Inhabited

/-- `buffer_unordered`'s refill: move tasks from the underlying stream into
the buffer while it holds fewer than `N`. -/
def fillLoop : List FetchTask → List FetchTask → List FetchTask × List FetchTask
  | [], infl => ([], infl)
  | t :: ts, infl =>
      if infl.length < N then fillLoop ts (infl ++ [t]) else (t :: ts, infl)

/-- One poll of the drained stream: refill the buffer, then poll the
in-flight future chosen by `choice` (mod the buffer size).  A future whose
`polls` hit zero resolves per its outcome; otherwise it just progresses. -/
def fetchStep (s : FetchState) (choice : Nat) : FetchState :=
  if s.result.isSome then s
  else
    let filled := fillLoop s.pending s.inflight
    let pending := filled.1
    let inflight := filled.2
    if inflight.isEmpty then
      -- underlying stream exhausted and no future in flight: `for_each` sees
      -- the end of the stream and `core.run` returns `Ok(())`.
      { pending := pending, inflight := inflight, done := s.done,
        result := some .ok }
    else
      let i := choice % inflight.length
      let t := inflight.getD i default
      if t.polls = 0 then
        match t.outcome with
        | .success =>
            { pending := pending, inflight := inflight.eraseIdx i,
              done := s.done ++ [t.idx], result := none }
        | .netErr =>
            -- the combined stream yields `Err`; `for_each` stops and
            -- `core.run(work)?` returns the error from `download_src`.
            { pending := pending, inflight := inflight.eraseIdx i,
              done := s.done, result := some .err }
        | .panicUnpack =>
            { pending := pending, inflight := inflight, done := s.done,
              result := some .panicked }
        | .panicRename =>
            { pending := pending, inflight := inflight, done := s.done,
              result := some .panicked }
      else
        { pending := pending,
          inflight := inflight.set i { t with polls := t.polls - 1 },
          done := s.done, result := none }

/-- Initial state of a `download_src` run over a catalog of download tasks. -/
def fetchInit (items : List FetchTask) : FetchState :=
  { pending := items, inflight := [], done := [], result := none }

/-- A `download_src` run over `items`, driven by the scheduler choice
sequence `sched`. -/
def download_src_run (items : List FetchTask) (sched : List Nat) : FetchState :=
  sched.foldl fetchStep (fetchInit items)

theorem fillLoop_length_le :
    ∀ (p infl : List FetchTask), infl.length ≤ N →
      (fillLoop p infl).2.length ≤ N := by
  intro p
  induction p with
  | nil => intro infl h; simpa [fillLoop] using h
  | cons t ts ih =>
      intro infl h
      by_cases hlt : infl.length < N
      · simpa [fillLoop, hlt] using ih (infl ++ [t]) (by simpa using hlt)
      · simpa [fillLoop, hlt] using h

theorem fetchStep_inflight_le (s : FetchState) (c : Nat)
    (h : s.inflight.length ≤ N) : (fetchStep s c).inflight.length ≤ N := by
  have hfill := fillLoop_length_le s.pending s.inflight h
  unfold fetchStep
  split
  · exact h
  · dsimp only
    split
    · exact hfill
    · split
      · split
        · exact le_trans (List.length_eraseIdx_le _ _) hfill
        · exact le_trans (List.length_eraseIdx_le _ _) hfill
        · exact hfill
        · exact hfill
      · simpa using hfill

theorem download_src_run_inflight_le (items : List FetchTask)
    (sched : List Nat) : (download_src_run items sched).inflight.length ≤ N := by
  unfold download_src_run
  have : ∀ (l : List Nat) (s : FetchState), s.inflight.length ≤ N →
      (l.foldl fetchStep s).inflight.length ≤ N := by
    intro l
    induction l with
    | nil => intro s h; simpa using h
    | cons c cs ih =>
        intro s h
        exact ih (fetchStep s c) (fetchStep_inflight_le s c h)
  exact this sched (fetchInit items) (by simp [fetchInit])

/-- **C2.** During any run of the fetch stage (`download_src`), the number of
simultaneously in-flight download tasks never exceeds a fixed ceiling of 5,
and this ceiling is the constant `N`, independent of the catalog size: the
bound holds for every catalog and every scheduling of the event loop. -/
theorem download_src_bounded_inflight :
    N = 5
    ∧ ∀ (items : List FetchTask) (sched : List Nat),
        (download_src_run items sched).inflight.length ≤ N :=
  ⟨rfl, download_src_run_inflight_le⟩

theorem fetchStep_frozen (s : FetchState) (c : Nat)
    (h : s.result.isSome) : fetchStep s c = s := by
  unfold fetchStep
  simp [h]

theorem foldl_fetchStep_frozen :
    ∀ (sched : List Nat) (s : FetchState), s.result.isSome →
      sched.foldl fetchStep s = s := by
  intro sched
  induction sched with
  | nil => intro s _; rfl
  | cons c cs ih =>
      intro s h
      simp only [List.foldl_cons, fetchStep_frozen s c h]
      exact ih s h

/-- **C1 counterexample.** Catalog of two entries; entry 0's download future
resolves to a network error immediately, entry 1's future would succeed after
five more polls.  After the scheduler polls entry 0 once, `download_src` has
already returned `Err` (`core.run(work)?` propagates the stream error), entry
1 has reached no terminal state (`done = []`), and a further poll changes
nothing — so a single item's failure does not fail only that item, and the
pipeline does not run to completion over all entries. -/
theorem download_src_single_failure_aborts_run :
    (download_src_run
        [⟨0, 0, .netErr⟩, ⟨1, 5, .success⟩] [0]).result = some FetchResult.err
    ∧ (download_src_run [⟨0, 0, .netErr⟩, ⟨1, 5, .success⟩] [0]).done = []
    ∧ download_src_run [⟨0, 0, .netErr⟩, ⟨1, 5, .success⟩] [0, 3]
        = download_src_run [⟨0, 0, .netErr⟩, ⟨1, 5, .success⟩] [0] := by
  refine ⟨?_, ?_, ?_⟩ <;> decide

/-- **C1 (amended).** In the fetch stage (`download_src`), a failure of a
single item is not isolated to that item: once any item's download future
resolves to an error the whole run stops with `Err` (and an unpack or rename
failure panics the event loop).  Formally, once the run's result is `err` or
`panicked`, every scheduler continuation leaves the state unchanged — no
pending or in-flight entry ever reaches a terminal success-or-failure state
afterwards. -/
theorem download_src_failure_halts_pipeline
    (items : List FetchTask) (sched sched' : List Nat)
    (h : (download_src_run items sched).result = some FetchResult.err
        ∨ (download_src_run items sched).result = some FetchResult.panicked) :
    download_src_run items (sched ++ sched') = download_src_run items sched := by
  unfold download_src_run
  rw [List.foldl_append]
  exact foldl_fetchStep_frozen sched' _ (by
    cases h with
    | inl h => simp [download_src_run] at h; simp [h]
    | inr h => simp [download_src_run] at h; simp [h])

/-- Witness for the amended C1 at a concrete two-entry catalog. -/
theorem download_src_failure_halts_pipeline_witness :
    download_src_run [⟨0, 0, .netErr⟩, ⟨1, 5, .success⟩] ([0] ++ [3])
      = download_src_run [⟨0, 0, .netErr⟩, ⟨1, 5, .success⟩] [0] :=
  download_src_failure_halts_pipeline _ [0] [3] (Or.inl (by decide))

/-! ## Catalog construction (`Registry::read`)

The crates.io index collaborator (`crates_index::Index`) is embedded as a
list of `IndexCrate`s.  Each crate's `versions` are in index-file order —
oldest first, newest last, as the registry appends newly published versions —
and carry their yanked flag; `crates_index`'s `latest_version()` returns the
last element, and the index guarantees at least one version per crate.
`retrieve_or_update()` is embedded as an `Except` input: on `Err` the
source's `.expect(..)` panics, aborting the run before any catalog exists. -/

structure IndexVersion where
  version : String
  yanked : Bool
deriving DecidableEq, Repr, Inhabited

structure IndexCrate where
  name : String
  versions : List IndexVersion
deriving DecidableEq, Repr, Inhabited

/-- `crates_index`'s `Crate::latest_version`: the last (most recently
published) version in the index record. -/
def IndexCrate.latest_version (k : IndexCrate) : IndexVersion :=
  k.versions.getLastD default

/-- `Registry::read` body: for each crate of the index, push the latest
version when `config_latest_only()` holds, otherwise push every version in
`.iter().rev()` order (newest first), yanked ones included. -/
def readCatalog (latestOnly : Bool) (index : List IndexCrate) : List PraziCrate :=
  index.foldl
    (fun list krate =>
      if latestOnly then
        list ++ [⟨krate.name, krate.latest_version.version⟩]
      else
        list ++ krate.versions.reverse.map (fun v => ⟨krate.name, v.version⟩))
    []

theorem foldl_acc_flatMap {α β : Type} (g : α → List β) (l : List α) :
    ∀ acc : List β, l.foldl (fun a k => a ++ g k) acc = acc ++ l.flatMap g := by
  induction l with
  | nil => intro acc; simp
  | cons x xs ih => intro acc; simp [List.foldl_cons, ih]

theorem foldl_acc_map {α β : Type} (f : α → β) (l : List α) :
    ∀ acc : List β, l.foldl (fun a k => a ++ [f k]) acc = acc ++ l.map f := by
  induction l with
  | nil => intro acc; simp
  | cons x xs ih => intro acc; simp [List.foldl_cons, ih]

theorem readCatalog_true_eq (index : List IndexCrate) :
    readCatalog true index
      = index.map (fun k => ⟨k.name, k.latest_version.version⟩) := by
  have h := foldl_acc_map
    (fun k : IndexCrate => (⟨k.name, k.latest_version.version⟩ : PraziCrate))
    index []
  simpa [readCatalog] using h

theorem readCatalog_false_eq (index : List IndexCrate) :
    readCatalog false index
      = index.flatMap (fun k => k.versions.reverse.map fun v => ⟨k.name, v.version⟩) := by
  have h := foldl_acc_flatMap
    (fun k : IndexCrate => k.versions.reverse.map fun v =>
      (⟨k.name, v.version⟩ : PraziCrate)) index []
  simpa [readCatalog] using h

/-- **C3.** Catalog construction (`Registry::read`): with `latest_only` set,
the catalog has exactly one entry per package name (in index order, names
staying distinct), carrying that package's latest published version (the last
of its index record); with it unset, the catalog has one entry per published
version of every package — membership does not depend on the yanked flag —
ordered most-recent-first within each package (the reverse of the index's
oldest-first order). -/
theorem read_catalog_policies (index : List IndexCrate)
    (hne : ∀ k ∈ index, k.versions ≠ [])
    (hnd : (index.map IndexCrate.name).Nodup) :
    (readCatalog true index
        = index.map (fun k => ⟨k.name, k.latest_version.version⟩)
      ∧ ((readCatalog true index).map PraziCrate.name).Nodup
      ∧ ∀ k, ∀ hk : k ∈ index,
          k.latest_version = k.versions.getLast (hne k hk))
    ∧ (readCatalog false index
        = index.flatMap (fun k => k.versions.reverse.map fun v => ⟨k.name, v.version⟩)
      ∧ ∀ k ∈ index, ∀ v ∈ k.versions,
          (⟨k.name, v.version⟩ : PraziCrate) ∈ readCatalog false index) := by
  refine ⟨⟨readCatalog_true_eq index, ?_, ?_⟩,
    readCatalog_false_eq index, ?_⟩
  · have : (readCatalog true index).map PraziCrate.name
        = index.map IndexCrate.name := by
      rw [readCatalog_true_eq, List.map_map]
      rfl
    rw [this]; exact hnd
  · intro k hk
    unfold IndexCrate.latest_version
    rw [List.getLastD_eq_getLast?, List.getLast?_eq_getLast _ (hne k hk)]
    rfl
  · intro k hk v hv
    rw [readCatalog_false_eq]
    exact List.mem_flatMap.mpr ⟨k, hk,
      List.mem_map.mpr ⟨v, List.mem_reverse.mpr hv, rfl⟩⟩

/-- Witness for C3 on a concrete two-crate index with a yanked version. -/
theorem read_catalog_policies_witness :
    (readCatalog true
        [⟨"a", [⟨"0.1.0", false⟩, ⟨"0.2.0", true⟩]⟩, ⟨"b", [⟨"1.0.0", false⟩]⟩]
        = [⟨"a", "0.2.0"⟩, ⟨"b", "1.0.0"⟩]
      ∧ (⟨"a", "0.2.0"⟩ : PraziCrate) ∈ readCatalog false
          [⟨"a", [⟨"0.1.0", false⟩, ⟨"0.2.0", true⟩]⟩, ⟨"b", [⟨"1.0.0", false⟩]⟩]
      ∧ readCatalog false
          [⟨"a", [⟨"0.1.0", false⟩, ⟨"0.2.0", true⟩]⟩, ⟨"b", [⟨"1.0.0", false⟩]⟩]
        = [⟨"a", "0.2.0"⟩, ⟨"a", "0.1.0"⟩, ⟨"b", "1.0.0"⟩]) := by
  have h := read_catalog_policies
    [⟨"a", [⟨"0.1.0", false⟩, ⟨"0.2.0", true⟩]⟩, ⟨"b", [⟨"1.0.0", false⟩]⟩]
    (by decide) (by decide)
  refine ⟨?_, ?_, ?_⟩
  · rw [h.1.1]; rfl
  · exact h.2.2 ⟨"a", [⟨"0.1.0", false⟩, ⟨"0.2.0", true⟩]⟩ (by decide)
      ⟨"0.2.0", true⟩ (by decide)
  · rw [h.2.1]; rfl

/-- `Registry::read`'s index acquisition:
`index.retrieve_or_update().expect("could not retrieve crates.io index")`.
An `Err` from the collaborator panics before any `PraziCrate` is pushed, so
the run aborts with no catalog. -/
def readResult (latestOnly : Bool)
    (fetch : Except String (List IndexCrate)) :
    Except String (List PraziCrate) :=
  match fetch with
  | .error e => .error e
  | .ok index => .ok (readCatalog latestOnly index)

/-- A whole subcommand run: `reg.read()` then one stage over the catalog
(`main` always calls `reg.read()` before any stage). -/
def stageRun {α : Type} (latestOnly : Bool)
    (fetch : Except String (List IndexCrate))
    (stage : List PraziCrate → α) : Except String α :=
  (readResult latestOnly fetch).map stage

/-- **C4.** If the index cannot be fetched or refreshed during catalog
construction, the entire run aborts with the catalog-construction failure:
no stage ever runs, and any catalog that is returned comes from a
successfully fetched index and is that index's complete catalog — never a
partial one. -/
theorem index_failure_is_fatal {α : Type} (latestOnly : Bool) (e : String)
    (stage : List PraziCrate → α) :
    readResult latestOnly (Except.error e) = Except.error e
    ∧ stageRun latestOnly (Except.error e) stage = Except.error e
    ∧ ∀ (fetch : Except String (List IndexCrate)) (cat : List PraziCrate),
        readResult latestOnly fetch = Except.ok cat →
        ∃ index, fetch = Except.ok index ∧ cat = readCatalog latestOnly index := by
  refine ⟨rfl, rfl, ?_⟩
  intro fetch cat h
  cases fetch with
  | error e' => exact absurd h (by simp [readResult])
  | ok index =>
      refine ⟨index, rfl, ?_⟩
      have : readCatalog latestOnly index = cat := by
        simpa [readResult] using h
      exact this.symm

/-- Witness for C4 at a concrete failing fetch and a concrete successful one. -/
theorem index_failure_is_fatal_witness :
    readResult true (Except.error "gone") = Except.error "gone"
    ∧ stageRun true (Except.error "gone") List.length = Except.error "gone"
    ∧ ∃ index, (Except.ok [] : Except String (List IndexCrate)) = Except.ok index
        ∧ ([] : List PraziCrate) = readCatalog true index := by
  have h := index_failure_is_fatal true "gone" List.length
  exact ⟨h.1, h.2.1, h.2.2 (Except.ok []) [] rfl⟩

/-! ## Parallel transform stages

`validate_manifests`, `rewrite_manifests`, `compile` and `build_callgraph`
each run `self.list.par_iter().for_each(|krate| ...)` where the per-item body
tests the filesystem, possibly spawns one external subprocess, and possibly
mutates the item's workspace.  The embedding makes the body a pure function
from the item, a filesystem snapshot (the list of existing paths) and a
subprocess oracle to the list of observable actions the body performs, in
program order.  A stage is the list of per-item action lists. -/

/-- Observable effects of a per-item stage body. -/
inductive Action where
  | spawn (program : String) (args : List String) (cwd : String)
  | unpack (archive : String) (dest : String)
  | removeDirAll (path : String)
  | rename (src : String) (dst : String)
  | println (msg : String)
  | panicked (msg : String)
deriving DecidableEq, Repr, Inhabited

def Action.isSpawn : Action → Bool
  | .spawn _ _ _ => true
  | _ => false

def Action.mutatesFs : Action → Bool
  | .unpack _ _ => true
  | .removeDirAll _ => true
  | .rename _ _ => true
  | _ => false

def Action.isPanic : Action → Bool
  | .panicked _ => true
  | _ => false

/-- Filesystem snapshot: the set of existing paths. -/
def FS : Type := List String

/-- `Path::new(&p).exists()`. -/
def pathExists (fs : FS) (p : String) : Bool :=
  List.contains fs p

/-- Captured result of one `Command::output()` call. -/
structure SubOutcome where
  success : Bool
  stderr : String
deriving DecidableEq, Repr, Inhabited

/-- Modelled `{:?}` debug rendering of a crate, used only inside log
messages; no claim depends on its exact characters. -/
def PraziCrate.debugStr (k : PraziCrate) : String :=
  k.name ++ " " ++ k.version

/-- Body of `Registry::validate_manifests`'s `for_each`: if the workspace
exists, spawn `cargo read-manifest` there; on failure print the diagnostic
and captured stderr; if the workspace is absent, do nothing. -/
def validate_manifests_item (root : String) (fs : FS) (out : SubOutcome)
    (krate : PraziCrate) : List Action :=
  let dir := krate.dir root
  if pathExists fs dir then
    Action.spawn "cargo" ["read-manifest"] dir ::
      (if out.success then []
       else [.println "Not valid manifest",
             .println ("stderr: " ++ out.stderr)])
  else []

/-- `Registry::validate_manifests` over the catalog (rayon `par_iter`:
items are independent; the embedding lists each item's actions). -/
def validate_manifests (root : String) (fs : FS)
    (out : PraziCrate → SubOutcome) (list : List PraziCrate) :
    List (PraziCrate × List Action) :=
  list.map fun k => (k, validate_manifests_item root fs (out k) k)

/-- The manifest-snapshot marker checked by the rewrite stage:
`format!("{}/Cargo.toml.orig", &dir)`. -/
def markerPath (root : String) (krate : PraziCrate) : String :=
  rustFormat "{0}/Cargo.toml.orig" [krate.dir root]

/-- The repackaged archive the rewrite stage looks for after `cargo publish`:
`format!("{0}/target/package/{1}-{2}.crate", &dir, name, version)`. -/
def newFilePath (root : String) (krate : PraziCrate) : String :=
  rustFormat "{0}/target/package/{1}-{2}.crate"
    [krate.dir root, krate.name, krate.version]

/-- Body of `Registry::rewrite_manifests`'s `for_each`.  `fs` is the
filesystem before the item runs and `fsAfter` the filesystem after the
`cargo publish --no-verify --dry-run --allow-dirty` subprocess (which may
have written `target/package/...`); the `{name}-{version}` rename source
keeps the source's leading `/` (`format!("/{0}/{1}-{2}", ...)`). -/
def rewrite_manifests_item (root : String) (fs : FS) (out : SubOutcome)
    (fsAfter : FS) (krate : PraziCrate) : List Action :=
  let dir := krate.dir root
  if pathExists fs dir && !pathExists fs (markerPath root krate) then
    Action.spawn "cargo" ["publish", "--no-verify", "--dry-run", "--allow-dirty"] dir ::
      (if out.success then
        if pathExists fsAfter (newFilePath root krate) then
          [.unpack (newFilePath root krate) (krate.dir_src root),
           .removeDirAll dir,
           .rename (rustFormat "/{0}/{1}-{2}"
              [krate.dir_src root, krate.name, krate.version]) dir,
           .println ("Repackaged: " ++ krate.url_src)]
        else []
      else [.println "Package not publishable with the running Cargo version"])
  else []

/-- `Registry::rewrite_manifests` over the catalog. -/
def rewrite_manifests (root : String) (fs : FS)
    (out : PraziCrate → SubOutcome) (fsAfter : PraziCrate → FS)
    (list : List PraziCrate) : List (PraziCrate × List Action) :=
  list.map fun k => (k, rewrite_manifests_item root fs (out k) (fsAfter k) k)

/-- Body of `Registry::compile`'s `for_each`: if the workspace exists, spawn
`rustup run [nightly] <version> cargo rustc --lib` there and report. -/
def compile_item (root : String) (fs : FS) (nightly : Bool)
    (stableV nightlyV : String) (out : SubOutcome)
    (krate : PraziCrate) : List Action :=
  let dir := krate.dir root
  let version := if nightly then nightlyV else stableV
  let rustupArgs := (if nightly then ["run", "nightly"] else ["run"])
    ++ [version, "cargo", "rustc", "--lib"]
  if pathExists fs dir then
    Action.spawn "rustup" rustupArgs dir ::
      (if out.success then [.println "build done!"]
       else [.println "build failed",
             .println ("stderr: " ++ out.stderr)])
  else []

/-- `Registry::compile` over the catalog. -/
def compile (root : String) (fs : FS) (nightly : Bool)
    (stableV nightlyV : String) (out : PraziCrate → SubOutcome)
    (list : List PraziCrate) : List (PraziCrate × List Action) :=
  list.map fun k => (k, compile_item root fs nightly stableV nightlyV (out k) k)

/-- One entry of the `glob("{dir}/target/debug/deps/*.bc")` iterator: `Ok`
with the matched path, or `Err` for an unreadable match. -/
def GlobEntry : Type := Except String String

/-- `PraziCrate::has_bitcode`: collect `glob(..).map(|v| v.is_ok())` and test
`res.len() == 1` — the count of *all* glob entries, `Ok` or not. -/
def has_bitcode (entries : List GlobEntry) : Bool :=
  (entries.map Except.isOk).length == 1

/-- `PraziCrate::bitcode_path`: keep the `Ok` entries and take `res[0]`;
`none` models the index-out-of-bounds panic when no `Ok` entry exists. -/
def bitcode_path (entries : List GlobEntry) : Option String :=
  (entries.filterMap fun e => e.toOption).head?

/-- Body of `Registry::build_callgraph`'s `for_each`: items with
`has_bitcode` spawn `{llvm}/bin/opt -dot-callgraph <bitcode_path>` in the
workspace; others are only reported as having no bitcode. -/
def build_callgraph_item (llvmPath root : String) (entries : List GlobEntry)
    (out : SubOutcome) (krate : PraziCrate) : List Action :=
  let dir := krate.dir root
  if has_bitcode entries then
    match bitcode_path entries with
    | some p =>
        Action.spawn (rustFormat "{0}/bin/opt" [llvmPath]) ["-dot-callgraph", p] dir ::
          (if out.success then [.println ("callgraph built: " ++ krate.debugStr)]
           else [.println "callgraph failed failed",
                 .println ("stderr: " ++ out.stderr)])
    | none => [.panicked "index out of bounds: res[0]"]
  else [.println ("no bitcode: " ++ krate.debugStr)]

/-- `Registry::build_callgraph` over the catalog; `entries k` are the glob
matches under `k`'s workspace. -/
def build_callgraph (llvmPath root : String)
    (entries : PraziCrate → List GlobEntry) (out : PraziCrate → SubOutcome)
    (list : List PraziCrate) : List (PraziCrate × List Action) :=
  list.map fun k => (k, build_callgraph_item llvmPath root (entries k) (out k) k)

/-- **C6.** The rewrite stage is idempotent via its marker file: for every
item whose workspace already contains the manifest-snapshot marker
(`Cargo.toml.orig`), a run of the rewrite stage performs no action at all for
that item — no subprocess is spawned and its workspace is untouched. -/
theorem rewrite_marker_skips (root : String) (fs : FS)
    (out : PraziCrate → SubOutcome) (fsAfter : PraziCrate → FS)
    (list : List PraziCrate) (k : PraziCrate) (hk : k ∈ list)
    (hmark : pathExists fs (markerPath root k) = true) :
    rewrite_manifests_item root fs (out k) (fsAfter k) k = []
    ∧ (k, ([] : List Action)) ∈ rewrite_manifests root fs out fsAfter list := by
  have hitem : rewrite_manifests_item root fs (out k) (fsAfter k) k = [] := by
    unfold rewrite_manifests_item
    simp [hmark]
  refine ⟨hitem, ?_⟩
  unfold rewrite_manifests
  exact List.mem_map.mpr ⟨k, hk, by rw [hitem]⟩

/-- Witness for C6: one-crate catalog whose workspace carries the marker. -/
theorem rewrite_marker_skips_witness :
    rewrite_manifests_item "/p"
        ["/p/crates/reg/a/1.0.0", "/p/crates/reg/a/1.0.0/Cargo.toml.orig"]
        ((fun _ => ⟨true, ""⟩) (PraziCrate.mk "a" "1.0.0"))
        ((fun _ => ([] : FS)) (PraziCrate.mk "a" "1.0.0"))
        (PraziCrate.mk "a" "1.0.0") = []
    ∧ (PraziCrate.mk "a" "1.0.0", ([] : List Action)) ∈
        rewrite_manifests "/p"
          ["/p/crates/reg/a/1.0.0", "/p/crates/reg/a/1.0.0/Cargo.toml.orig"]
          (fun _ => ⟨true, ""⟩) (fun _ => ([] : FS)) [PraziCrate.mk "a" "1.0.0"] :=
  rewrite_marker_skips "/p"
    ["/p/crates/reg/a/1.0.0", "/p/crates/reg/a/1.0.0/Cargo.toml.orig"]
    (fun _ => ⟨true, ""⟩) (fun _ => ([] : FS)) [PraziCrate.mk "a" "1.0.0"]
    (PraziCrate.mk "a" "1.0.0") (by decide) (by decide)

/-- **C10.** In the rewrite stage, if the repackaging subprocess exits
successfully but the expected repackaged archive
`{workspace}/target/package/{name}-{version}.crate` does not exist, the
item's workspace is left entirely unchanged: no unpack, no deletion of the
old workspace, and no rename is performed — at most the `cargo publish`
subprocess itself ran. -/
theorem rewrite_missing_archive_no_mutation (root : String) (fs : FS)
    (out : SubOutcome) (fsAfter : FS) (k : PraziCrate)
    (hsucc : out.success = true)
    (hnew : pathExists fsAfter (newFilePath root k) = false) :
    (rewrite_manifests_item root fs out fsAfter k).all
        (fun a => !a.mutatesFs) = true
    ∧ ((pathExists fs (k.dir root) && !pathExists fs (markerPath root k)) = true →
        rewrite_manifests_item root fs out fsAfter k
          = [Action.spawn "cargo"
              ["publish", "--no-verify", "--dry-run", "--allow-dirty"]
              (k.dir root)]) := by
  constructor
  · unfold rewrite_manifests_item
    by_cases hc :
        (pathExists fs (k.dir root) && !pathExists fs (markerPath root k)) = true
    · simp [hc, hsucc, hnew, Action.mutatesFs]
    · rw [Bool.not_eq_true] at hc
      simp [hc]
  · intro hcond
    unfold rewrite_manifests_item
    simp [hcond, hsucc, hnew]

/-- Witness for C10: workspace present, no marker, successful dry-run
publish that produced no archive. -/
theorem rewrite_missing_archive_no_mutation_witness :
    (rewrite_manifests_item "/p" ["/p/crates/reg/a/1.0.0"]
        ⟨true, ""⟩ ["/p/crates/reg/a/1.0.0"] (PraziCrate.mk "a" "1.0.0")).all
        (fun a => !a.mutatesFs) = true
    ∧ ((pathExists ["/p/crates/reg/a/1.0.0"]
          ((PraziCrate.mk "a" "1.0.0").dir "/p")
        && !pathExists ["/p/crates/reg/a/1.0.0"]
            (markerPath "/p" (PraziCrate.mk "a" "1.0.0"))) = true →
        rewrite_manifests_item "/p" ["/p/crates/reg/a/1.0.0"]
            ⟨true, ""⟩ ["/p/crates/reg/a/1.0.0"] (PraziCrate.mk "a" "1.0.0")
          = [Action.spawn "cargo"
              ["publish", "--no-verify", "--dry-run", "--allow-dirty"]
              ((PraziCrate.mk "a" "1.0.0").dir "/p")]) :=
  rewrite_missing_archive_no_mutation "/p" ["/p/crates/reg/a/1.0.0"]
    ⟨true, ""⟩ ["/p/crates/reg/a/1.0.0"] (PraziCrate.mk "a" "1.0.0")
    rfl (by decide)

/-- **C8.** Every parallel transform stage skips a catalog entry whose final
workspace directory is absent: validate, rewrite and compile perform no
action at all, and the extraction stage — whose glob over the absent
directory yields no matches, supplied as the hypothesis `hglob` — only
prints its "no bitcode" report, spawning no subprocess and mutating
nothing. -/
theorem stages_skip_absent_workspace (root llvmPath : String) (fs : FS)
    (outV outR outC outB : SubOutcome) (fsAfter : FS)
    (nightly : Bool) (stableV nightlyV : String)
    (entries : List GlobEntry) (k : PraziCrate)
    (hdir : pathExists fs (k.dir root) = false)
    (hglob : entries = []) :
    validate_manifests_item root fs outV k = []
    ∧ rewrite_manifests_item root fs outR fsAfter k = []
    ∧ compile_item root fs nightly stableV nightlyV outC k = []
    ∧ build_callgraph_item llvmPath root entries outB k
        = [.println ("no bitcode: " ++ k.debugStr)]
    ∧ (build_callgraph_item llvmPath root entries outB k).all
        (fun a => !a.isSpawn && !a.mutatesFs) = true := by
  subst hglob
  refine ⟨?_, ?_, ?_, ?_, ?_⟩
  · unfold validate_manifests_item; simp [hdir]
  · unfold rewrite_manifests_item; simp [hdir]
  · unfold compile_item; simp [hdir]
  · unfold build_callgraph_item; simp [has_bitcode]
  · unfold build_callgraph_item
    simp [has_bitcode, Action.isSpawn, Action.mutatesFs]

/-- Witness for C8: empty filesystem, so the workspace is absent. -/
theorem stages_skip_absent_workspace_witness :
    validate_manifests_item "/p" [] ⟨true, ""⟩ (PraziCrate.mk "a" "1.0.0") = []
    ∧ rewrite_manifests_item "/p" [] ⟨true, ""⟩ [] (PraziCrate.mk "a" "1.0.0") = []
    ∧ compile_item "/p" [] false "1.30.0" "2018-01-01" ⟨true, ""⟩
        (PraziCrate.mk "a" "1.0.0") = []
    ∧ build_callgraph_item "/llvm" "/p" [] ⟨true, ""⟩ (PraziCrate.mk "a" "1.0.0")
        = [.println ("no bitcode: " ++ (PraziCrate.mk "a" "1.0.0").debugStr)]
    ∧ (build_callgraph_item "/llvm" "/p" [] ⟨true, ""⟩
        (PraziCrate.mk "a" "1.0.0")).all
        (fun a => !a.isSpawn && !a.mutatesFs) = true :=
  stages_skip_absent_workspace "/p" "/llvm" [] ⟨true, ""⟩ ⟨true, ""⟩ ⟨true, ""⟩
    ⟨true, ""⟩ [] false "1.30.0" "2018-01-01" [] (PraziCrate.mk "a" "1.0.0")
    (by decide) rfl

/-- **C7.** In the extraction stage, an item with zero matching `.bc`
entries gets the distinct "no bitcode" report and never spawns the analysis
subprocess, while an item with exactly one matching artifact spawns
`{llvm}/bin/opt -dot-callgraph` on exactly that artifact in its workspace. -/
theorem extraction_artifact_precondition (llvmPath root : String)
    (out : SubOutcome) (k : PraziCrate) (p : String) :
    (build_callgraph_item llvmPath root [] out k
        = [.println ("no bitcode: " ++ k.debugStr)]
      ∧ (build_callgraph_item llvmPath root [] out k).all
          (fun a => !a.isSpawn) = true)
    ∧ ∃ rest, build_callgraph_item llvmPath root [Except.ok p] out k
        = Action.spawn (rustFormat "{0}/bin/opt" [llvmPath])
            ["-dot-callgraph", p] (k.dir root) :: rest
      ∧ rest.all (fun a => !a.isSpawn && !a.mutatesFs) = true := by
  refine ⟨⟨?_, ?_⟩, ?_⟩
  · unfold build_callgraph_item; simp [has_bitcode]
  · unfold build_callgraph_item
    simp [has_bitcode, Action.isSpawn]
  · unfold build_callgraph_item
    by_cases hs : out.success <;>
      simp [has_bitcode, bitcode_path, Except.toOption, hs,
        Action.isSpawn, Action.mutatesFs]

/-- **C9.** For an item whose compiled output tree holds two or more
matching `.bc` artifacts (all glob entries are `Ok` and there are at least
two of them), `has_bitcode` is false, so the extraction stage skips the item
with the "no bitcode" report and never reaches `bitcode_path`'s `res[0]`
access; moreover, for any all-`Ok` glob result the extraction body never
performs the artifact-selection panic. -/
theorem multiple_artifacts_skip (llvmPath root : String) (out : SubOutcome)
    (k : PraziCrate) (entries : List GlobEntry)
    (hok : ∀ e ∈ entries, e.isOk = true) :
    (2 ≤ entries.length →
      has_bitcode entries = false
      ∧ build_callgraph_item llvmPath root entries out k
          = [.println ("no bitcode: " ++ k.debugStr)])
    ∧ (build_callgraph_item llvmPath root entries out k).all
        (fun a => !a.isPanic) = true := by
  constructor
  · intro hlen
    have hb : has_bitcode entries = false := by
      have hne : entries.length ≠ 1 := by omega
      simp only [has_bitcode, List.length_map, beq_eq_false_iff_ne, ne_eq]
      exact hne
    refine ⟨hb, ?_⟩
    unfold build_callgraph_item
    simp [hb]
  · by_cases hb : has_bitcode entries = true
    · have hlen : entries.length = 1 := by
        simpa [has_bitcode, List.length_map] using hb
      obtain ⟨e, he⟩ := List.length_eq_one.mp hlen
      subst he
      have : e.isOk = true := hok e (by simp)
      obtain ⟨q, hq⟩ : ∃ q, e = Except.ok q := by
        cases e with
        | error _ => simp [Except.isOk, Except.toBool] at this
        | ok q => exact ⟨q, rfl⟩
      subst hq
      unfold build_callgraph_item
      by_cases hs : out.success <;>
        simp [hb, bitcode_path, Except.toOption, hs, Action.isPanic]
    · unfold build_callgraph_item
      simp [Bool.not_eq_true] at hb
      simp [hb, Action.isPanic]

/-- Witness for C9: two `Ok` glob entries. -/
theorem multiple_artifacts_skip_witness :
    (2 ≤ ([Except.ok "x.bc", Except.ok "y.bc"] : List GlobEntry).length →
      has_bitcode [Except.ok "x.bc", Except.ok "y.bc"] = false
      ∧ build_callgraph_item "/llvm" "/p" [Except.ok "x.bc", Except.ok "y.bc"]
          ⟨true, ""⟩ (PraziCrate.mk "a" "1.0.0")
          = [.println ("no bitcode: " ++ (PraziCrate.mk "a" "1.0.0").debugStr)])
    ∧ (build_callgraph_item "/llvm" "/p" [Except.ok "x.bc", Except.ok "y.bc"]
        ⟨true, ""⟩ (PraziCrate.mk "a" "1.0.0")).all
        (fun a => !a.isPanic) = true :=
  multiple_artifacts_skip "/llvm" "/p" ⟨true, ""⟩ (PraziCrate.mk "a" "1.0.0")
    [Except.ok "x.bc", Except.ok "y.bc"] (by decide)

end Prazi
